import Mathlib

/-!
Verification of the mcp-pr-reviewer repository: a shallow embedding of
`github_integration.py` (the remote-API client functions) and
`pr_analyzer.py` (the tool dispatcher and resource listing), together
with theorems settling the specification claims.

JSON values exchanged with the remote APIs are modelled by the inductive
type `Json`.  Python dictionaries are association lists whose first
binding of a key wins; Python exceptions raised inside a `try` block are
modelled by `Except String` (the string being `str(e)`); each outbound
HTTP call is modelled by an oracle value of type `HttpOutcome`, where
`failure msg` covers both a transport error and a non-success status
(`raise_for_status`), and `success body` is the parsed JSON body.
-/

/-- A JSON value, as produced by `response.json()` and consumed by the
client functions.  Objects are association lists (first binding wins,
matching Python dict semantics for the lookups performed here). -/
inductive Json where
  | null
  | bool (b : Bool)
  | num (n : Int)
  | str (s : String)
  | arr (elems : List Json)
  | obj (fields : List (String × Json))

/-- Field lookup in a JSON object, used to state properties of results;
returns `none` on a non-object or a missing key. -/
def Json.lookup : Json → String → Option Json
  | .obj fs, k => fs.lookup k
  | _, _ => none

/-- Python `j[k]` for a string key `k`: a `KeyError` on a missing key, a
`TypeError` on a non-dict. -/
def pyIndex (j : Json) (k : String) : Except String Json :=
  match j with
  | .obj fs =>
    match fs.lookup k with
    | some v => .ok v
    | none => .error ("KeyError: " ++ k)
  | _ => .error ("TypeError: value is not subscriptable with string key " ++ k)

/-- Python `j.get(k, dflt)`: the default on a missing key, an
`AttributeError` on a non-dict.  `j.get(k)` is `pyGet j k .null`. -/
def pyGet (j : Json) (k : String) (dflt : Json) : Except String Json :=
  match j with
  | .obj fs => .ok ((fs.lookup k).getD dflt)
  | _ => .error "AttributeError: value has no attribute get"

/-- Python `k in j` for a string `k`: key membership for a dict, element
equality for a list, substring test for a string, `TypeError` otherwise. -/
def pyContains (j : Json) (k : String) : Except String Bool :=
  match j with
  | .obj fs => .ok (fs.lookup k).isSome
  | .arr xs => .ok (xs.any fun e => match e with | .str s => s == k | _ => false)
  | .str s => .ok (decide ((s.splitOn k).length > 1))
  | _ => .error "TypeError: argument is not iterable"

/-- Python `for x in j`: the elements of a list, the keys of a dict, the
one-character strings of a string, `TypeError` otherwise. -/
def pyIter (j : Json) : Except String (List Json) :=
  match j with
  | .arr xs => .ok xs
  | .obj fs => .ok (fs.map fun kv => .str kv.fst)
  | .str s => .ok (s.toList.map fun c => .str (String.mk [c]))
  | _ => .error "TypeError: value is not iterable"

/-- Outcome of one outbound HTTP call: `failure msg` models a transport
error, a non-success status raised by `raise_for_status`, or a body that
fails to parse as JSON, with `msg` the exception text `str(e)`;
`success body` models a 2xx response whose body parsed as `body`. -/
inductive HttpOutcome where
  | failure (msg : String)
  | success (body : Json)

/-- The `change` dict built for one entry of `files_data` in
`fetch_pr_changes` (github_integration.py lines 43-52): required keys
are indexed (a missing one raises), the three optional ones default to
the empty string. -/
def fileChange (file : Json) : Except String Json := do
  let filename ← pyIndex file "filename"
  let status ← pyIndex file "status"
  let additions ← pyIndex file "additions"
  let deletions ← pyIndex file "deletions"
  let changesVal ← pyIndex file "changes"
  let patch ← pyGet file "patch" (.str "")
  let rawUrl ← pyGet file "raw_url" (.str "")
  let contentsUrl ← pyGet file "contents_url" (.str "")
  pure (.obj [("filename", filename), ("status", status),
              ("additions", additions), ("deletions", deletions),
              ("changes", changesVal), ("patch", patch),
              ("raw_url", rawUrl), ("contents_url", contentsUrl)])

/-- The body of the `try` block of `fetch_pr_changes` after both reads
succeeded (github_integration.py lines 41-65): map the file entries to
change dicts, then assemble `pr_info` with
`total_changes = len(changes)`. -/
def buildPrInfo (prData filesData : Json) : Except String Json := do
  let files ← pyIter filesData
  let changes ← files.mapM fileChange
  let title ← pyIndex prData "title"
  let descr ← pyIndex prData "body"
  let user ← pyIndex prData "user"
  let author ← pyIndex user "login"
  let createdAt ← pyIndex prData "created_at"
  let updatedAt ← pyIndex prData "updated_at"
  let state ← pyIndex prData "state"
  pure (.obj [("title", title), ("description", descr), ("author", author),
              ("created_at", createdAt), ("updated_at", updatedAt),
              ("state", state), ("total_changes", .num changes.length),
              ("changes", .arr changes)])

/-- `fetch_pr_changes` (github_integration.py lines 11-73).  The two GET
calls are given as oracle outcomes; the second call is only issued after
the first succeeds, so its outcome is irrelevant when the first fails.
Every exception inside the `try` block is caught and turns the result
into `None`, modelled as `none`. -/
def fetch_pr_changes (prResp filesResp : HttpOutcome) : Option Json :=
  match prResp with
  | .failure _ => none
  | .success prData =>
    match filesResp with
    | .failure _ => none
    | .success filesData =>
      match buildPrInfo prData filesData with
      | .ok info => some info
      | .error _ => none

/-- The `fetch_pr` dispatcher tool (pr_analyzer.py lines 137-150): a
`None` from the client becomes the empty mapping `{}`; the surrounding
`try` can only fire on faults of the logging layer, which is not
modelled, so the embedding returns the client result or `{}`. -/
def fetch_pr_tool (prResp filesResp : HttpOutcome) : Json :=
  match fetch_pr_changes prResp filesResp with
  | none => .obj []
  | some info => info

/-- The `review_data` payload of the client `submit_pr_review`
(github_integration.py lines 98-106): body and event always, the
`comments` key added only when the Python value `comments` is truthy,
i.e. a non-`None`, non-empty list. -/
def reviewPayload (review_body review_state : String)
    (comments : Option (List Json)) : Json :=
  let reviewData := [("body", Json.str review_body), ("event", Json.str review_state)]
  match comments with
  | none => .obj reviewData
  | some cs =>
    if cs.isEmpty then .obj reviewData
    else .obj (reviewData ++ [("comments", Json.arr cs)])

/-- The `comment_data` payload of the client `add_pr_comment`
(github_integration.py lines 142-144). -/
def commentPayload (comment : String) : Json :=
  .obj [("body", Json.str comment)]

/-- The client `submit_pr_review` (github_integration.py lines 75-120):
POST the review payload; on success return the parsed body, on any
exception return the dict with the single key `error` holding `str(e)`.
The POST is an oracle from the payload sent to the outcome. -/
def submit_pr_review_client (review_body review_state : String)
    (comments : Option (List Json)) (post : Json → HttpOutcome) : Json :=
  match post (reviewPayload review_body review_state comments) with
  | .success body => body
  | .failure msg => .obj [("error", .str msg)]

/-- The client `add_pr_comment` (github_integration.py lines 122-158):
same contract as `submit_pr_review_client` on the issue-comment
endpoint. -/
def add_pr_comment_client (comment : String) (post : Json → HttpOutcome) : Json :=
  match post (commentPayload comment) with
  | .success body => body
  | .failure msg => .obj [("error", .str msg)]

/-- The `try` body of the dispatcher tool `submit_pr_review`
(pr_analyzer.py lines 200-205) applied to the client result: test
`"error" in review_response`, then build the failure envelope from
`review_response["error"]` or the success envelope from `.get("id")`
and `.get("html_url")`. -/
def reviewEnvelopeBody (r : Json) : Except String Json := do
  let hasErr ← pyContains r "error"
  if hasErr then
    let v ← pyIndex r "error"
    pure (.obj [("success", .bool false), ("error", v)])
  else
    let idv ← pyGet r "id" .null
    let urlv ← pyGet r "html_url" .null
    pure (.obj [("success", .bool true), ("review_id", idv), ("review_url", urlv)])

/-- The dispatcher tool `submit_pr_review`'s normalization of a client
result (pr_analyzer.py lines 190-210): an exception in the `try` body is
caught and becomes the failure envelope with `str(e)`. -/
def reviewEnvelope (r : Json) : Json :=
  match reviewEnvelopeBody r with
  | .ok j => j
  | .error e => .obj [("success", .bool false), ("error", .str e)]

/-- The `try` body of the dispatcher tool `add_pr_comment`
(pr_analyzer.py lines 229-234) applied to the client result. -/
def commentEnvelopeBody (r : Json) : Except String Json := do
  let hasErr ← pyContains r "error"
  if hasErr then
    let v ← pyIndex r "error"
    pure (.obj [("success", .bool false), ("error", v)])
  else
    let idv ← pyGet r "id" .null
    let urlv ← pyGet r "html_url" .null
    pure (.obj [("success", .bool true), ("comment_id", idv), ("comment_url", urlv)])

/-- The dispatcher tool `add_pr_comment`'s normalization of a client
result (pr_analyzer.py lines 221-239). -/
def commentEnvelope (r : Json) : Json :=
  match commentEnvelopeBody r with
  | .ok j => j
  | .error e => .obj [("success", .bool false), ("error", .str e)]

/-- The dispatcher tool `submit_pr_review` (pr_analyzer.py lines
179-210): call the client, then normalize its result. -/
def submit_pr_review_tool (review_body review_state : String)
    (comments : Option (List Json)) (post : Json → HttpOutcome) : Json :=
  reviewEnvelope (submit_pr_review_client review_body review_state comments post)

/-- The dispatcher tool `add_pr_comment` (pr_analyzer.py lines
212-239): call the client, then normalize its result. -/
def add_pr_comment_tool (comment : String) (post : Json → HttpOutcome) : Json :=
  commentEnvelope (add_pr_comment_client comment post)

/-- The four tool descriptors of the `resources/list` payload
(pr_analyzer.py lines 56-126), transcribed field by field. -/
def prToolDescriptors : List Json := [
        .obj [
          ("name", .str "fetch_pr"),
          ("description", .str "Fetch changes from a GitHub pull request"),
          ("parameters", .obj [
            ("type", .str "object"),
            ("properties", .obj [
              ("repo_owner", .obj [("type", .str "string")]),
              ("repo_name", .obj [("type", .str "string")]),
              ("pr_number", .obj [("type", .str "integer")])]),
            ("required", .arr [.str "repo_owner", .str "repo_name", .str "pr_number"])])],
        .obj [
          ("name", .str "create_notion_page"),
          ("description", .str "Create a Notion page with PR analysis"),
          ("parameters", .obj [
            ("type", .str "object"),
            ("properties", .obj [
              ("title", .obj [("type", .str "string")]),
              ("content", .obj [("type", .str "string")])]),
            ("required", .arr [.str "title", .str "content"])])],
        .obj [
          ("name", .str "submit_pr_review"),
          ("description", .str "Submit a review to a GitHub pull request"),
          ("parameters", .obj [
            ("type", .str "object"),
            ("properties", .obj [
              ("repo_owner", .obj [("type", .str "string")]),
              ("repo_name", .obj [("type", .str "string")]),
              ("pr_number", .obj [("type", .str "integer")]),
              ("review_body", .obj [("type", .str "string")]),
              ("review_state", .obj [
                ("type", .str "string"),
                ("enum", .arr [.str "COMMENT", .str "APPROVE", .str "REQUEST_CHANGES"]),
                ("default", .str "COMMENT")]),
              ("comments", .obj [
                ("type", .str "array"),
                ("items", .obj [
                  ("type", .str "object"),
                  ("properties", .obj [
                    ("path", .obj [("type", .str "string")]),
                    ("position", .obj [("type", .str "integer")]),
                    ("body", .obj [("type", .str "string")])])])])]),
            ("required", .arr [.str "repo_owner", .str "repo_name",
                               .str "pr_number", .str "review_body"])])],
        .obj [
          ("name", .str "add_pr_comment"),
          ("description", .str "Add a comment to a GitHub pull request"),
          ("parameters", .obj [
            ("type", .str "object"),
            ("properties", .obj [
              ("repo_owner", .obj [("type", .str "string")]),
              ("repo_name", .obj [("type", .str "string")]),
              ("pr_number", .obj [("type", .str "integer")]),
              ("comment", .obj [("type", .str "string")])]),
            ("required", .arr [.str "repo_owner", .str "repo_name",
                               .str "pr_number", .str "comment"])])]]

/-- The single resource group of the `resources/list` payload
(pr_analyzer.py lines 53-127). -/
def githubPrGroup : List (String × Json) :=
  [("name", .str "github_pr"),
   ("description", .str "GitHub PR Analysis tools"),
   ("tools", .arr prToolDescriptors)]

/-- The static descriptor returned for `resources/list`
(pr_analyzer.py lines 51-129). -/
def resourcesListResponse : Json :=
  .obj [("resources", .arr [.obj githubPrGroup])]

/-- `_handle_resource_methods` (pr_analyzer.py lines 45-132): the static
descriptor for `resources/list`, the empty mapping for any other method
name.  The function is pure data; its `params` argument is unused in the
source and therefore not a parameter here. -/
def handle_resource_methods (method : String) : Json :=
  if method = "resources/list" then resourcesListResponse else .obj []

/-- Outcome of initializing a `PRAnalyzer`: either the process is up, or
it terminated via `sys.exit`. -/
inductive InitOutcome where
  | initialized
  | exited (code : Nat)
deriving DecidableEq

/-- Python truthiness of `os.getenv(...)`: `None` and the empty string
are falsy, any other string is truthy. -/
def pyTruthyStr : Option String → Bool
  | none => false
  | some s => !s.isEmpty

/-- `_init_notion` (pr_analyzer.py lines 28-43): a missing or empty
Notion API key or page id raises, the exception is caught and the
process exits with code 1.  The construction of the Notion `Client` is
an external collaborator and is treated as non-failing. -/
def init_notion (notionApiKey notionPageId : Option String) : InitOutcome :=
  if pyTruthyStr notionApiKey && pyTruthyStr notionPageId then .initialized
  else .exited 1

/-- `PRAnalyzer.__init__` (pr_analyzer.py lines 11-26) as far as
configuration checking goes: only the Notion credential and page id are
checked; the GitHub token is read by `github_integration` at import time
(line 9) without any check, so startup never consults it. -/
def startupInit (_githubToken notionApiKey notionPageId : Option String) : InitOutcome :=
  init_notion notionApiKey notionPageId

/-- The Authorization header value built by every client function
(github_integration.py lines 27, 94, 138): a missing token is
interpolated by the f-string as the text `None`. -/
def githubAuthHeader (githubToken : Option String) : String :=
  "token " ++ (match githubToken with | some t => t | none => "None")

/-- Shape of a successfully assembled `pr_info` dict: its
`total_changes` value is the length of its `changes` list by
construction. -/
theorem buildPrInfo_shape {prData filesData info : Json}
    (h : buildPrInfo prData filesData = .ok info) :
    ∃ t d a c u s, ∃ cs : List Json,
      info = Json.obj [("title", t), ("description", d), ("author", a),
        ("created_at", c), ("updated_at", u), ("state", s),
        ("total_changes", .num cs.length), ("changes", .arr cs)] := by
  unfold buildPrInfo at h
  simp only [bind, Except.bind, pure, Except.pure] at h
  repeat' split at h
  all_goals try exact Except.noConfusion h
  all_goals injection h with h
  all_goals exact ⟨_, _, _, _, _, _, _, h.symm⟩

/-- C1: whenever `fetch_pr_changes` returns a summary (both HTTP reads
succeeded and the body assembled), the summary's `total_changes` field
equals the length of its `changes` sequence. -/
theorem fetch_pr_changes_total_changes (prResp filesResp : HttpOutcome) (info : Json)
    (h : fetch_pr_changes prResp filesResp = some info) :
    ∃ cs : List Json, info.lookup "changes" = some (.arr cs) ∧
      info.lookup "total_changes" = some (.num cs.length) := by
  unfold fetch_pr_changes at h
  cases prResp with
  | failure m => exact Option.noConfusion h
  | success prData =>
    cases filesResp with
    | failure m => exact Option.noConfusion h
    | success filesData =>
      cases hb : buildPrInfo prData filesData with
      | error e => simp [hb] at h
      | ok j =>
        simp [hb] at h
        subst h
        obtain ⟨t, d, a, c, u, s, cs, hj⟩ := buildPrInfo_shape hb
        subst hj
        exact ⟨cs, rfl, rfl⟩

/-- Concrete PR metadata used to witness C1. -/
def prDataSample : Json :=
  .obj [("title", .str "t"), ("body", .null),
        ("user", .obj [("login", .str "octo")]),
        ("created_at", .str "2024-01-01"), ("updated_at", .str "2024-01-02"),
        ("state", .str "open")]

/-- Concrete file list used to witness C1. -/
def filesDataSample : Json :=
  .arr [.obj [("filename", .str "a.py"), ("status", .str "modified"),
              ("additions", .num 3), ("deletions", .num 1), ("changes", .num 4)]]

/-- Witness for C1 at a concrete successful fetch. -/
theorem fetch_pr_changes_total_changes_witness :
    ∃ info, fetch_pr_changes (.success prDataSample) (.success filesDataSample) = some info ∧
      ∃ cs : List Json, info.lookup "changes" = some (.arr cs) ∧
        info.lookup "total_changes" = some (.num cs.length) :=
  ⟨_, rfl, fetch_pr_changes_total_changes (.success prDataSample)
    (.success filesDataSample) _ rfl⟩

/-- C3: when either HTTP read fails (non-success status or transport
error), `fetch_pr_changes` returns the explicit absence value `none`
rather than any summary, and the dispatcher's `fetch_pr` tool then
returns the empty mapping. -/
theorem fetch_pr_changes_failure_absent (prResp filesResp : HttpOutcome)
    (h : (∃ m, prResp = .failure m) ∨ (∃ m, filesResp = .failure m)) :
    fetch_pr_changes prResp filesResp = none ∧
      fetch_pr_tool prResp filesResp = .obj [] := by
  have hnone : fetch_pr_changes prResp filesResp = none := by
    rcases h with ⟨m, rfl⟩ | ⟨m, rfl⟩
    · rfl
    · cases prResp <;> rfl
  exact ⟨hnone, by simp [fetch_pr_tool, hnone]⟩

/-- Witness for C3 at a concrete failed first read. -/
theorem fetch_pr_changes_failure_absent_witness :
    fetch_pr_changes (.failure "404 Client Error") (.success (.obj [])) = none ∧
      fetch_pr_tool (.failure "404 Client Error") (.success (.obj [])) = .obj [] :=
  fetch_pr_changes_failure_absent _ _ (Or.inl ⟨_, rfl⟩)

/-- C4: the outbound review payload carries a `comments` field exactly
when the `comments` argument is a non-empty list, and then its value is
that list unchanged; with `comments = none` (Python `None`) the field is
omitted entirely. -/
theorem reviewPayload_comments_iff (rb rs : String) (copt : Option (List Json)) :
    ((Json.lookup (reviewPayload rb rs copt) "comments").isSome ↔
      ∃ cs, copt = some cs ∧ cs ≠ []) ∧
    (∀ cs, copt = some cs → cs ≠ [] →
      Json.lookup (reviewPayload rb rs copt) "comments" = some (.arr cs)) := by
  cases copt with
  | none => simp [reviewPayload, Json.lookup, List.lookup]
  | some cs =>
    cases cs with
    | nil => simp [reviewPayload, Json.lookup, List.lookup]
    | cons a t => simp [reviewPayload, Json.lookup, List.lookup]

/-- Witness for C4 at a concrete one-element comment list. -/
theorem reviewPayload_comments_iff_witness :
    Json.lookup (reviewPayload "looks good" "COMMENT"
        (some [Json.obj [("path", .str "a.py"), ("position", .num 1), ("body", .str "nit")]]))
        "comments" =
      some (.arr [Json.obj [("path", .str "a.py"), ("position", .num 1), ("body", .str "nit")]]) :=
  (reviewPayload_comments_iff "looks good" "COMMENT" _).2 _ rfl (by simp)

/-- Counterexample to C6: the caller-supplied string is copied into the
`event` field unvalidated, so an argument outside the declared enum
reaches the outbound payload. -/
theorem reviewPayload_event_counterexample :
    Json.lookup (reviewPayload "b" "BANANA" none) "event" = some (.str "BANANA") ∧
      ¬("BANANA" = "COMMENT" ∨ "BANANA" = "APPROVE" ∨ "BANANA" = "REQUEST_CHANGES") :=
  ⟨rfl, by decide⟩

/-- C6 amended: the `event` field of the outbound review payload always
equals the caller-supplied `review_state` string verbatim; membership in
the declared enum holds only when the caller supplies such a value. -/
theorem reviewPayload_event_verbatim (rb rs : String) (copt : Option (List Json)) :
    Json.lookup (reviewPayload rb rs copt) "event" = some (.str rs) := by
  cases copt with
  | none => rfl
  | some cs =>
    cases cs with
    | nil => rfl
    | cons a t => rfl

/-- C5: when the HTTP write fails (non-success status or transport
error), each client function returns the dict tagged with an `error`
key holding the exception text, instead of raising. -/
theorem client_failure_tagged (rb rs c msg msg2 : String) (copt : Option (List Json))
    (post post2 : Json → HttpOutcome)
    (h1 : post (reviewPayload rb rs copt) = .failure msg)
    (h2 : post2 (commentPayload c) = .failure msg2) :
    submit_pr_review_client rb rs copt post = .obj [("error", .str msg)] ∧
      add_pr_comment_client c post2 = .obj [("error", .str msg2)] := by
  unfold submit_pr_review_client add_pr_comment_client
  rw [h1, h2]
  exact ⟨rfl, rfl⟩

/-- Witness for C5 at concrete failing transports. -/
theorem client_failure_tagged_witness :
    submit_pr_review_client "b" "COMMENT" none (fun _ => .failure "422 Client Error") =
        .obj [("error", .str "422 Client Error")] ∧
      add_pr_comment_client "hi" (fun _ => .failure "503 Server Error") =
        .obj [("error", .str "503 Server Error")] :=
  client_failure_tagged "b" "COMMENT" "hi" "422 Client Error" "503 Server Error" none
    (fun _ => .failure "422 Client Error") (fun _ => .failure "503 Server Error") rfl rfl

/-- C2: the dispatcher normalizes client outcomes into the uniform
envelope: a response body without an `error` key, here
`(id 99, html_url http://x)`, yields the success envelope with
`review_id` and `review_url` copied over, and a failing write yields
`(success false, error msg)` with the non-empty exception text. -/
theorem write_tools_envelope (rb rs c msg : String) (copt : Option (List Json))
    (post post2 : Json → HttpOutcome)
    (h1 : post (reviewPayload rb rs copt) =
      .success (.obj [("id", .num 99), ("html_url", .str "http://x")]))
    (h2 : post2 (commentPayload c) = .failure msg) (h3 : msg ≠ "") :
    submit_pr_review_tool rb rs copt post =
        .obj [("success", .bool true), ("review_id", .num 99),
              ("review_url", .str "http://x")] ∧
      add_pr_comment_tool c post2 = .obj [("success", .bool false), ("error", .str msg)] ∧
      msg ≠ "" := by
  refine ⟨?_, ?_, h3⟩
  · unfold submit_pr_review_tool submit_pr_review_client
    rw [h1]
    rfl
  · unfold add_pr_comment_tool add_pr_comment_client
    rw [h2]
    rfl

/-- Witness for C2: a mock success body under `review_state = APPROVE`
and a mock HTTP 422 on the comment endpoint. -/
theorem write_tools_envelope_witness :
    submit_pr_review_tool "lgtm" "APPROVE" none
        (fun _ => .success (.obj [("id", .num 99), ("html_url", .str "http://x")])) =
      .obj [("success", .bool true), ("review_id", .num 99),
            ("review_url", .str "http://x")] ∧
    add_pr_comment_tool "hi" (fun _ => .failure "422 Client Error: Unprocessable Entity") =
      .obj [("success", .bool false),
            ("error", .str "422 Client Error: Unprocessable Entity")] ∧
    "422 Client Error: Unprocessable Entity" ≠ "" :=
  write_tools_envelope "lgtm" "APPROVE" "hi" "422 Client Error: Unprocessable Entity" none
    (fun _ => .success (.obj [("id", .num 99), ("html_url", .str "http://x")]))
    (fun _ => .failure "422 Client Error: Unprocessable Entity") rfl rfl (by decide)

/-- C7: any resource-method name other than `resources/list` gets the
empty mapping back from the dispatcher's resource handler. -/
theorem handle_resource_methods_unknown (method : String)
    (h : method ≠ "resources/list") :
    handle_resource_methods method = .obj [] := by
  simp [handle_resource_methods, h]

/-- Witness for C7 at a concrete unknown method name. -/
theorem handle_resource_methods_unknown_witness :
    handle_resource_methods "resources/read" = .obj [] :=
  handle_resource_methods_unknown "resources/read" (by decide)

/-- C8: the resource listing is a static value, so two invocations are
identical, and it describes exactly the four tools `fetch_pr`,
`create_notion_page`, `submit_pr_review`, `add_pr_comment` under the
single resource group `github_pr`. -/
theorem resources_list_static :
    handle_resource_methods "resources/list" = resourcesListResponse ∧
    handle_resource_methods "resources/list" = handle_resource_methods "resources/list" ∧
    Json.lookup resourcesListResponse "resources" = some (.arr [.obj githubPrGroup]) ∧
    Json.lookup (.obj githubPrGroup) "name" = some (.str "github_pr") ∧
    Json.lookup (.obj githubPrGroup) "tools" = some (.arr prToolDescriptors) ∧
    prToolDescriptors.map (fun t => Json.lookup t "name") =
      [some (.str "fetch_pr"), some (.str "create_notion_page"),
       some (.str "submit_pr_review"), some (.str "add_pr_comment")] :=
  ⟨rfl, rfl, rfl, rfl, rfl, rfl⟩

/-- C9: a missing (or empty) Notion credential or page id makes startup
exit with code 1; the GitHub token is never consulted at startup, and
when absent the Authorization header sent on every outbound call is the
literal text `token None`. -/
theorem startup_credential_checks (gh notionKey notionPage : Option String)
    (h : pyTruthyStr notionKey = false ∨ pyTruthyStr notionPage = false) :
    startupInit gh notionKey notionPage = .exited 1 ∧
      (∀ gh2, startupInit gh2 notionKey notionPage = startupInit gh notionKey notionPage) ∧
      githubAuthHeader none = "token None" := by
  refine ⟨?_, fun gh2 => rfl, rfl⟩
  unfold startupInit init_notion
  rcases h with h | h <;> simp [h]

/-- Witness for C9: no Notion key in the environment while the page id
and the GitHub token are present. -/
theorem startup_credential_checks_witness :
    startupInit (some "ghtok") none (some "page") = .exited 1 :=
  (startup_credential_checks (some "ghtok") none (some "page") (Or.inl rfl)).1

/-- On a dict result carrying an `error` key, the review envelope is the
failure envelope holding that key's value. -/
theorem reviewEnvelope_obj_err {fs : List (String × Json)} {v : Json}
    (h : fs.lookup "error" = some v) :
    reviewEnvelope (.obj fs) = .obj [("success", .bool false), ("error", v)] := by
  unfold reviewEnvelope reviewEnvelopeBody
  simp [pyContains, pyIndex, h, bind, Except.bind, pure, Except.pure]

/-- On a dict result without an `error` key, the review envelope is the
success envelope with `id` and `html_url` read off via `.get`. -/
theorem reviewEnvelope_obj_noerr {fs : List (String × Json)}
    (h : fs.lookup "error" = none) :
    reviewEnvelope (.obj fs) =
      .obj [("success", .bool true), ("review_id", (fs.lookup "id").getD .null),
            ("review_url", (fs.lookup "html_url").getD .null)] := by
  unfold reviewEnvelope reviewEnvelopeBody
  simp [pyContains, pyGet, h, bind, Except.bind, pure, Except.pure]

/-- On a dict result carrying an `error` key, the comment envelope is
the failure envelope holding that key's value. -/
theorem commentEnvelope_obj_err {fs : List (String × Json)} {v : Json}
    (h : fs.lookup "error" = some v) :
    commentEnvelope (.obj fs) = .obj [("success", .bool false), ("error", v)] := by
  unfold commentEnvelope commentEnvelopeBody
  simp [pyContains, pyIndex, h, bind, Except.bind, pure, Except.pure]

/-- On a dict result without an `error` key, the comment envelope is the
success envelope with `id` and `html_url` read off via `.get`. -/
theorem commentEnvelope_obj_noerr {fs : List (String × Json)}
    (h : fs.lookup "error" = none) :
    commentEnvelope (.obj fs) =
      .obj [("success", .bool true), ("comment_id", (fs.lookup "id").getD .null),
            ("comment_url", (fs.lookup "html_url").getD .null)] := by
  unfold commentEnvelope commentEnvelopeBody
  simp [pyContains, pyGet, h, bind, Except.bind, pure, Except.pure]

/-- C10: for a dict client result, both write tools report failure
exactly when the dict has an `error` key (so a success body that happens
to contain `error` reads as failure); without it, the success envelope
copies the `id` and `html_url` values, substituting `null` when those
keys are absent. -/
theorem envelope_error_key_iff (fs : List (String × Json)) :
    ((Json.lookup (reviewEnvelope (.obj fs)) "success" = some (.bool false)) ↔
      (fs.lookup "error").isSome = true) ∧
    (∀ v, fs.lookup "error" = some v →
      reviewEnvelope (.obj fs) = .obj [("success", .bool false), ("error", v)]) ∧
    (fs.lookup "error" = none →
      reviewEnvelope (.obj fs) =
        .obj [("success", .bool true), ("review_id", (fs.lookup "id").getD .null),
              ("review_url", (fs.lookup "html_url").getD .null)]) ∧
    ((Json.lookup (commentEnvelope (.obj fs)) "success" = some (.bool false)) ↔
      (fs.lookup "error").isSome = true) ∧
    (∀ v, fs.lookup "error" = some v →
      commentEnvelope (.obj fs) = .obj [("success", .bool false), ("error", v)]) ∧
    (fs.lookup "error" = none →
      commentEnvelope (.obj fs) =
        .obj [("success", .bool true), ("comment_id", (fs.lookup "id").getD .null),
              ("comment_url", (fs.lookup "html_url").getD .null)]) := by
  refine ⟨?_, fun v h => reviewEnvelope_obj_err h, fun h => reviewEnvelope_obj_noerr h,
    ?_, fun v h => commentEnvelope_obj_err h, fun h => commentEnvelope_obj_noerr h⟩
  · cases h : fs.lookup "error" with
    | none => rw [reviewEnvelope_obj_noerr h]; simp [Json.lookup, List.lookup]
    | some v => rw [reviewEnvelope_obj_err h]; simp [Json.lookup, List.lookup]
  · cases h : fs.lookup "error" with
    | none => rw [commentEnvelope_obj_noerr h]; simp [Json.lookup, List.lookup]
    | some v => rw [commentEnvelope_obj_err h]; simp [Json.lookup, List.lookup]

/-- Witness for C10: a body that contains an `error` key despite being a
success response reads as failure, and a body missing `html_url` yields
a null `comment_url`. -/
theorem envelope_error_key_iff_witness :
    reviewEnvelope (.obj [("error", .str "boom"), ("id", .num 1)]) =
        .obj [("success", .bool false), ("error", .str "boom")] ∧
      commentEnvelope (.obj [("id", .num 7)]) =
        .obj [("success", .bool true), ("comment_id", .num 7), ("comment_url", .null)] :=
  ⟨(envelope_error_key_iff [("error", .str "boom"), ("id", .num 1)]).2.1 _ rfl,
   (envelope_error_key_iff [("id", .num 7)]).2.2.2.2.2 rfl⟩
